import Mathlib

/-!
Verification of the My-Writer-AI front end's editing/generation core.

The development shallowly embeds the JavaScript source:

* `src/frontend/src/services/aiService.js` — the Generation Client
  (`generateWrite`, `generateRewrite`, `generateDescribe`,
  `generateBrainstorm`, `generateContextElement`, `generateStoryBranches`).
* `src/frontend/src/App.jsx` — payload assembly, `handleEditorChange`
  (word count / saved flag), and the append splice of
  `handleGenerateWrite` / `handleGenerateDescribe` / `handleGenerateBrainstorm`.
* `src/unnamed/part_003` (MainEditor) — `handleAiAction`, the targeted
  rewrite splice.
* `src/frontend/src/components/CreativeBranchingDialog.jsx` — the Branch
  Explorer transitions (`handleGenerateBranches`, `handleSelectBranch`,
  `handleGoBack`, `handleCustomBranch`).
* `src/frontend/src/components/BrainstormDialog.jsx` —
  `handleStartBrainstorming` and its in-flight flag.

JavaScript idioms are made explicit: an optional / possibly-`undefined`
string field is `Option String`; the JS truthiness test `!x` on such a
field is `jsFalsyOpt`; `x || d` is `jsOr`.  External platform primitives
that the source calls are modelled as explicit inputs or small functions:
`Date.now()` is a `Nat` argument, the `Math.random` id suffix is a
`String`-valued argument, the network exchange is the `Request` value
returned by a client operation (an `Except.error` result means the
operation threw before any network call), and the DOM `innerText`
derivation is `listText` over a small node tree, following the `innerText`
getter algorithm: block-level elements contribute required line break
counts around their content (2 for a `p` element, 1 for other blocks),
text is whitespace-processed per line box under `white-space: normal`,
empty strings are removed, break runs merge to their maximum and do not
take effect at the very beginning or end.
-/

/-- JS truthiness of an optional string: `!x` is true when the field is
absent (`undefined`) or the empty string. -/
def jsFalsyOpt : Option String → Bool
  | none => true
  | some s => s = ""

/-- JS `x || d` for an optional string field `x`: the default `d` is used
when the field is absent or empty (both falsy). -/
def jsOr : Option String → String → String
  | none, d => d
  | some s, d => if s = "" then d else s

/-- JS whitespace (the ASCII part of `\s` / `String.prototype.trim`):
space, tab, line feed, carriage return, vertical tab, form feed. -/
def isWS (c : Char) : Bool :=
  c = ' ' || c = '\t' || c = '\n' || c = '\r' || c = '\x0b' || c = '\x0c'

/-- Strip trailing whitespace from a character list: a character is kept
when it is non-whitespace or some later character is kept. -/
def trimRight : List Char → List Char
  | [] => []
  | c :: rest =>
      let r := trimRight rest
      if r.isEmpty && isWS c then [] else c :: r

/-- `String.prototype.trim()`: strip leading and trailing whitespace. -/
def jsTrim (s : String) : String :=
  ⟨trimRight (s.data.dropWhile isWS)⟩

/-- Story Context: the fixed field set held in `App.jsx`'s `storyContext`
state (all free-text strings). -/
structure StoryContext where
  genre : String := ""
  style : String := ""
  synopsis : String := ""
  characters : String := ""
  worldbuilding : String := ""
  outline : String := ""
  target_audience_age : String := ""
deriving DecidableEq

/-- A generation request body: the fields the client functions place in the
JSON body.  `none` for an optional field means the key is absent from the
serialized JSON (JSON.stringify drops `undefined` values). -/
structure Payload where
  instruction : Option String := none
  current_text : String := ""
  selection : Option String := none
  story_context : Option StoryContext := none
deriving DecidableEq

/-- One network exchange: the endpoint posted to and the JSON body sent.
A client operation returning `Except.ok r` performs exactly the exchange
`r`; returning `Except.error e` means it threw locally before `fetch`. -/
structure Request where
  endpoint : String
  body : Payload
deriving DecidableEq

/-- `generateWrite` (aiService.js:40-43): posts the caller's payload to
`/generate/write` unchanged — no default instruction is inserted. -/
def generateWrite (payload : Payload) : Request :=
  { endpoint := "/generate/write", body := payload }

/-- `generateRewrite` (aiService.js:50-61): throws
"Selection is required for rewrite operation." when `!payload.selection`
(absent or empty string), otherwise posts
`{instruction: "Rewrite the following text", ...payload}`. -/
def generateRewrite (payload : Payload) : Except String Request :=
  if jsFalsyOpt payload.selection then
    .error "Selection is required for rewrite operation."
  else
    .ok { endpoint := "/generate/rewrite",
          body := { payload with
            instruction := some (payload.instruction.getD "Rewrite the following text") } }

/-- `generateDescribe` (aiService.js:68-76): default instruction
"Describe the following text/concept in more detail", overridden by a
caller-supplied one via the object spread. -/
def generateDescribe (payload : Payload) : Request :=
  { endpoint := "/generate/describe",
    body := { payload with
      instruction := some (payload.instruction.getD
        "Describe the following text/concept in more detail") } }

/-- `generateBrainstorm` (aiService.js:83-91): default instruction
"Brainstorm ideas based on the following". -/
def generateBrainstorm (payload : Payload) : Request :=
  { endpoint := "/generate/brainstorm",
    body := { payload with
      instruction := some (payload.instruction.getD
        "Brainstorm ideas based on the following") } }

/-- `generateContextElement` (aiService.js:99-110): default instruction
"Generate {elementType} for my story", endpoint
`/generate/context/{elementType}`. -/
def generateContextElement (elementType : String) (payload : Payload) : Request :=
  { endpoint := "/generate/context/" ++ elementType,
    body := { payload with
      instruction := some (payload.instruction.getD
        ("Generate " ++ elementType ++ " for my story")) } }

/-- The request half of `generateStoryBranches` (aiService.js:117-123):
default instruction "Generate alternative story branches". -/
def generateStoryBranchesRequest (payload : Payload) : Request :=
  { endpoint := "/generate/story-branches",
    body := { payload with
      instruction := some (payload.instruction.getD
        "Generate alternative story branches") } }

/-- A branch object as it may arrive from the backend: every field
optional (`none` = key absent). -/
structure RawBranch where
  id : Option String := none
  title : Option String := none
  summary : Option String := none
  content : Option String := none
deriving DecidableEq

/-- A normalized frontend Branch. -/
structure Branch where
  id : String
  title : String
  summary : String
  content : String
  isCustom : Bool := false
deriving DecidableEq

/-- The normalization half of `generateStoryBranches` (aiService.js:126-140).
`branches?` is the response's `branches` field (`none` = key absent/falsy);
`rnd i` is the `Math.random().toString(36).substr(2, 9)` suffix drawn for
the `i`-th element's fallback id. -/
def normalizeBranches (rnd : Nat → String) (branches? : Option (List RawBranch)) :
    List Branch :=
  match branches? with
  | none => []
  | some bs =>
      (bs.enum).map (fun p =>
        { id := jsOr p.2.id ("branch-" ++ rnd p.1)
          title := jsOr p.2.title "Untitled Branch"
          summary := jsOr p.2.summary ""
          content := jsOr p.2.content "" })

/-- `Object.values(storyContext).some(Boolean)` (App.jsx:70): true when at
least one context field is a non-empty string (JS truthiness on strings). -/
def someNonEmptyField (sc : StoryContext) : Bool :=
  sc.genre ≠ "" || sc.style ≠ "" || sc.synopsis ≠ "" || sc.characters ≠ "" ||
  sc.worldbuilding ≠ "" || sc.outline ≠ "" || sc.target_audience_age ≠ ""

/-- The payload assembled by `handleGenerateWrite` (App.jsx:66-73):
`story_context` is `storyContext` when some field is truthy, else
`undefined` (dropped from the JSON body, modelled `none`). -/
def writePayloadApp (editorContent : String) (sc : StoryContext) : Payload :=
  { instruction := some "Continue writing the story based on the current text."
    current_text := editorContent
    story_context := if someNonEmptyField sc then some sc else none }

/-- The payload assembled by `handleGenerateDescribe` (App.jsx:111-117). -/
def describePayloadApp (editorContent : String) (sc : StoryContext) : Payload :=
  { instruction := some "Describe the last paragraph or concept."
    current_text := editorContent
    story_context := if someNonEmptyField sc then some sc else none }

/-- The payload assembled by `handleGenerateBrainstorm` (App.jsx:153-160). -/
def brainstormPayloadApp (editorContent : String) (sc : StoryContext) : Payload :=
  { instruction := some "Brainstorm ideas based on the current story progress."
    current_text := editorContent
    story_context := if someNonEmptyField sc then some sc else none }

/-- The payload assembled by `handleGenerateBranches`
(CreativeBranchingDialog.jsx:64-69): `story_context` is the raw
`storyContext` prop, included unconditionally. -/
def branchingPayload (editorContent scenarioText branchQuestion : String)
    (sc : StoryContext) : Payload :=
  { instruction := some ("Generate 3 distinct story branches for this scenario: \""
      ++ scenarioText ++ "\" with branching question: \"" ++ branchQuestion ++ "\"")
    current_text := editorContent ++ "\n\nCurrent scenario: " ++ scenarioText
    story_context := some sc }

/-- One entry of the Branch Explorer history stack
(CreativeBranchingDialog.jsx:87-95): the snapshot pushed by
`handleSelectBranch`. -/
structure HistEntry where
  id : String
  text : String
  question : String
  branches : List Branch
deriving DecidableEq

/-- The CreativeBranchingDialog component state touched by the explorer
transitions. -/
structure ExplorerState where
  currentScenario : String := "initial"
  branchHistory : List HistEntry := []
  scenarioText : String := ""
  branchQuestion : String := ""
  branches : List Branch := []
  activeTab : String := "editor"
  customBranchTitle : String := ""
  customBranchContent : String := ""
deriving DecidableEq

/-- `handleSelectBranch` (CreativeBranchingDialog.jsx:81-101): rejected when
`!branch.id` (empty id; a null branch is modelled by the caller not having
one to pass); otherwise pushes the current snapshot, moves to the branch,
clears question and candidates, and switches to the visualization tab. -/
def handleSelectBranch (s : ExplorerState) (b : Branch) : ExplorerState :=
  if b.id = "" then s
  else
    { s with
      branchHistory := s.branchHistory ++
        [{ id := s.currentScenario, text := s.scenarioText,
           question := s.branchQuestion, branches := s.branches }]
      currentScenario := b.id
      scenarioText := b.content
      branchQuestion := ""
      branches := []
      activeTab := "visualization" }

/-- `handleGoBack` (CreativeBranchingDialog.jsx:103-114): no-op on empty
history; otherwise pops the last snapshot and restores scenario id, text,
question and candidate list from it. -/
def handleGoBack (s : ExplorerState) : ExplorerState :=
  match s.branchHistory.getLast? with
  | none => s
  | some prev =>
      { s with
        currentScenario := prev.id
        scenarioText := prev.text
        branchQuestion := prev.question
        branches := prev.branches
        branchHistory := s.branchHistory.dropLast }

/-- `handleCustomBranch` (CreativeBranchingDialog.jsx:116-133): `now` is
the `Date.now()` millisecond timestamp read for the id.  When both the
title and the content are non-blank (truthy after `.trim()`), appends the
synthesized branch and clears the two input fields; otherwise does
nothing. -/
def handleCustomBranch (s : ExplorerState) (now : Nat) : ExplorerState :=
  if (jsTrim s.customBranchTitle != "") && (jsTrim s.customBranchContent != "") then
    { s with
      branches := s.branches ++
        [{ id := "custom-" ++ toString now
           title := s.customBranchTitle
           content := s.customBranchContent
           summary := (⟨s.customBranchContent.data.take 100⟩ : String) ++
             (if s.customBranchContent.length > 100 then "..." else "")
           isCustom := true }]
      customBranchTitle := ""
      customBranchContent := "" }
  else s

/-- The outcome of the single awaited network exchange of a generation
action. -/
inductive Outcome where
  | success (text : String)
  | failure (msg : String)
deriving DecidableEq

/-- The BrainstormDialog component state touched by
`handleStartBrainstorming`. -/
structure BrainstormState where
  ideaPrompt : String := ""
  context : String := ""
  examples : List String := [""]
  isGenerating : Bool := false
  isOpen : Bool := true
deriving DecidableEq

/-- `handleStartBrainstorming` (BrainstormDialog.jsx:97-140), collapsed over
its one suspension point: returns unchanged on a blank prompt; otherwise
sets `isGenerating` true, and on success calls the result callback and
`onClose()` (modelled `isOpen := false`) — with no reset of
`isGenerating`, which only the `catch` branch clears. -/
def handleStartBrainstorming (s : BrainstormState) (outcome : Outcome) :
    BrainstormState :=
  if jsTrim s.ideaPrompt = "" then s
  else
    match outcome with
    | .success _ => { s with isGenerating := true, isOpen := false }
    | .failure _ => { s with isGenerating := false }

/-- A node of the editable surface's DOM tree: a text node or an element
with a tag and children. -/
inductive DomNode where
  | text (s : String)
  | elem (tag : String) (children : List DomNode)

/-- One item produced by the `innerText` rendered text collection steps:
a string of rendered text, or a required line break count contributed by a
block-level element. -/
inductive RenderItem where
  | chunk (s : String)
  | breaks (n : Nat)
deriving DecidableEq

mutual

/-- Rendered text collection for one node: a text node contributes its
(not yet whitespace-processed) text; a block-level element contributes its
required line break count before and after its children's items — 2 for a
`p` element, 1 for other blocks such as `div`; the inline formatting
wrappers (`strong`/`em`/`u`) contribute their children's items alone. -/
def nodeItems : DomNode → List RenderItem
  | .text s => [.chunk s]
  | .elem tag cs =>
      if tag = "p" then .breaks 2 :: listItems cs ++ [.breaks 2]
      else if tag = "div" then .breaks 1 :: listItems cs ++ [.breaks 1]
      else listItems cs

/-- Rendered text collection over a child list: concatenation of each
child's items. -/
def listItems : List DomNode → List RenderItem
  | [] => []
  | n :: rest => nodeItems n ++ listItems rest

end

mutual

/-- CSS `white-space: normal` collapsing: every maximal run of whitespace
characters becomes a single space. -/
def collapseWS : List Char → List Char
  | [] => []
  | c :: rest => if isWS c then ' ' :: collapseWSRun rest else c :: collapseWS rest

/-- `collapseWS` inside a whitespace run: the run's single space is
already emitted, so further whitespace is dropped. -/
def collapseWSRun : List Char → List Char
  | [] => []
  | c :: rest => if isWS c then collapseWSRun rest else c :: collapseWS rest

end

/-- CSS whitespace processing for the inline text of one line box:
collapsible whitespace at the start of the line is removed, interior runs
collapse to single spaces, and whitespace at the end of the line is
removed. -/
def cssLineText (s : String) : String :=
  ⟨trimRight (collapseWS (s.data.dropWhile isWS))⟩

mutual

/-- Concatenate adjacent text items, so that one line box's text is
whitespace-processed as a whole. -/
def mergeChunks : List RenderItem → List RenderItem
  | [] => []
  | .chunk a :: rest => mergeChunksAux a rest
  | .breaks n :: rest => .breaks n :: mergeChunks rest

/-- `mergeChunks` while accumulating the text `a` of adjacent chunks. -/
def mergeChunksAux (a : String) : List RenderItem → List RenderItem
  | [] => [.chunk a]
  | .chunk b :: rest => mergeChunksAux (a ++ b) rest
  | .breaks n :: rest => .chunk a :: .breaks n :: mergeChunks rest

end

/-- Apply the per-line CSS whitespace processing to every text item. -/
def renderChunks (l : List RenderItem) : List RenderItem :=
  l.map fun
    | .chunk s => .chunk (cssLineText s)
    | .breaks n => .breaks n

/-- Remove items that are the empty string (`innerText` getter step 3). -/
def dropEmptyChunks (l : List RenderItem) : List RenderItem :=
  l.filter fun
    | .chunk s => s != ""
    | .breaks _ => true

mutual

/-- Replace each run of consecutive required line break counts by a single
count holding the run's maximum (`innerText` getter step 5, before its
expansion to newline characters). -/
def mergeBreaks : List RenderItem → List RenderItem
  | [] => []
  | .breaks n :: rest => mergeBreaksAux n rest
  | .chunk s :: rest => .chunk s :: mergeBreaks rest

/-- `mergeBreaks` while accumulating the maximum `m` of a run of break
counts. -/
def mergeBreaksAux (m : Nat) : List RenderItem → List RenderItem
  | [] => [.breaks m]
  | .breaks n :: rest => mergeBreaksAux (max m n) rest
  | .chunk s :: rest => .breaks m :: .chunk s :: mergeBreaks rest

end

/-- Whether an item is a required line break count. -/
def isBreakItem : RenderItem → Bool
  | .breaks _ => true
  | .chunk _ => false

/-- Remove required line break counts at the start and end of the item
list (`innerText` getter step 4: they do not take effect there). -/
def trimBreakEnds (l : List RenderItem) : List RenderItem :=
  ((l.dropWhile isBreakItem).reverse.dropWhile isBreakItem).reverse

/-- Concatenate the processed items, expanding a required line break count
`n` to `n` newline characters. -/
def emitItems : List RenderItem → String
  | [] => ""
  | .chunk s :: rest => s ++ emitItems rest
  | .breaks n :: rest => String.mk (List.replicate n '\n') ++ emitItems rest

/-- Model of the `innerText` getter over a child list: collect rendered
items, whitespace-process each line box's text, remove empty strings,
merge break runs by maximum, drop breaks at the very beginning and end,
and concatenate. -/
def listText (l : List DomNode) : String :=
  emitItems (trimBreakEnds (mergeBreaks (dropEmptyChunks (renderChunks (mergeChunks (listItems l))))))

/-- Model of `marked.parse` on a plain single-line string with no markdown
markup and no blank lines: the text becomes a single paragraph block
(`<p>…</p>`; the trailing newline of marked's HTML output is a
whitespace-only text node with no rendered contribution and is omitted). -/
def markedParse (s : String) : List DomNode := [.elem "p" [.text s]]

/-- The DOM mutation of `handleAiAction`'s targeted replace
(part_003:249-258): the editor holds the document as one text node (the
`MainEditor` effect keeps `innerText = editorContent`); the anchored range
covers `len` characters starting at `start`.  `range.deleteContents()`
removes the span, and inserting the fragment's nodes at the range splits
the text node there — yielding the prefix text node, the fragment's child
nodes in order, then the suffix text node. -/
def spliceRewriteTree (doc : String) (start len : Nat) (fragment : List DomNode) :
    List DomNode :=
  .text ⟨doc.data.take start⟩ :: fragment ++ [.text ⟨doc.data.drop (start + len)⟩]

/-- The DOM mutation of the append splice (App.jsx:80-91): when the tracked
`editorContent` is non-blank, the generated fragment is appended after a
`paragraph-break` `div`; otherwise the editor is set to the fragment
directly. -/
def spliceAppendTree (tree : List DomNode) (editorContent : String)
    (fragment : List DomNode) : List DomNode :=
  if jsTrim editorContent != "" then tree ++ .elem "div" [] :: fragment
  else fragment

mutual

/-- `acc.reverse` prepended fields of splitting the remaining characters at
runs of whitespace: JS `String.prototype.split(/\s+/)`, with `acc` the
characters of the field currently being read (reversed). -/
def splitWSAux : List Char → List Char → List (List Char)
  | [], acc => [acc.reverse]
  | c :: rest, acc =>
      if isWS c then acc.reverse :: skipWSRun rest
      else splitWSAux rest (c :: acc)

/-- Continuation of `splitWSAux` inside a whitespace run (the `\s+`
separator): skip the rest of the run, then start the next field. -/
def skipWSRun : List Char → List (List Char)
  | [] => [[]]
  | c :: rest =>
      if isWS c then skipWSRun rest
      else splitWSAux rest [c]

end

/-- JS `s.split(/\s+/)` on the characters of `s`. -/
def jsSplitWS (l : List Char) : List (List Char) := splitWSAux l []

/-- `handleEditorChange`'s word count (App.jsx:51-52):
`newContent.trim().split(/\s+/).length` when the trimmed content is truthy,
else `0`. -/
def wordCountJS (s : String) : Nat :=
  if jsTrim s = "" then 0 else (jsSplitWS (jsTrim s).data).length

/-- The Document state derived by `handleEditorChange` (App.jsx:48-54)
from the new plain-text content. -/
structure EditorDerived where
  content : String
  wordCount : Nat
  saved : Bool
deriving DecidableEq

/-- `handleEditorChange` (App.jsx:48-54): tracks the new content, derives
the word count, and marks the document unsaved. -/
def handleEditorChange (s : String) : EditorDerived :=
  { content := s, wordCount := wordCountJS s, saved := false }

/-- The targeted-replace splice as `handleAiAction` completes it
(part_003:249-263): mutate the tree, then re-derive the tracked state from
the live tree's rendered text via `handleEditorChange`. -/
def rewriteSpliceResult (doc : String) (start len : Nat) (fragment : List DomNode) :
    List DomNode × EditorDerived :=
  let t := spliceRewriteTree doc start len fragment
  (t, handleEditorChange (listText t))

/-- The append splice as `handleGenerateWrite` (App.jsx:80-97) completes
it: mutate the tree, then re-derive the tracked state from the live tree's
rendered text. -/
def appendSpliceResult (tree : List DomNode) (editorContent : String)
    (fragment : List DomNode) : List DomNode × EditorDerived :=
  let t := spliceAppendTree tree editorContent fragment
  (t, handleEditorChange (listText t))

mutual

/-- Specification-side count of the maximal whitespace-separated tokens of
a character list: each transition into a run of non-whitespace characters
counts one token. -/
def countTokens : List Char → Nat
  | [] => 0
  | c :: rest => if isWS c then countTokens rest else 1 + insideToken rest

/-- `countTokens` while inside a token: the current token is already
counted; a whitespace character ends it. -/
def insideToken : List Char → Nat
  | [] => 0
  | c :: rest => if isWS c then countTokens rest else insideToken rest

end

/-- A character list whose last element, if any, is non-whitespace. -/
def endsNonWS (l : List Char) : Prop :=
  ∀ c, l.getLast? = some c → isWS c = false

lemma endsNonWS_nil : endsNonWS [] := by
  intro c h
  simp at h

lemma endsNonWS_of_cons {c : Char} {rest : List Char}
    (h : endsNonWS (c :: rest)) (hne : rest ≠ []) : endsNonWS rest := by
  intro d hd
  apply h
  obtain ⟨e, t, rfl⟩ := List.exists_cons_of_ne_nil hne
  rwa [List.getLast?_cons_cons]

lemma ne_nil_of_endsNonWS_ws {c : Char} {rest : List Char}
    (h : endsNonWS (c :: rest)) (hws : isWS c = true) : rest ≠ [] := by
  intro hrest
  subst hrest
  have := h c (by simp)
  rw [this] at hws
  exact Bool.false_ne_true hws

lemma endsNonWS_trimRight : ∀ l : List Char, endsNonWS (trimRight l) := by
  intro l
  induction l with
  | nil => exact endsNonWS_nil
  | cons c rest ih =>
      rcases hr : trimRight rest with _ | ⟨e, t⟩
      · cases hc : isWS c with
        | true =>
            have hstep : trimRight (c :: rest) = [] := by
              rw [trimRight, hr]
              simp [hc]
            rw [hstep]
            exact endsNonWS_nil
        | false =>
            have hstep : trimRight (c :: rest) = [c] := by
              rw [trimRight, hr]
              simp [hc]
            rw [hstep]
            intro d hd
            simp at hd
            rw [← hd]
            exact hc
      · have hstep : trimRight (c :: rest) = c :: e :: t := by
          rw [trimRight, hr]
          simp
        rw [hstep]
        intro d hd
        rw [List.getLast?_cons_cons] at hd
        exact ih d (by rw [hr]; exact hd)

lemma head?_trimRight {l : List Char} (hne : trimRight l ≠ []) :
    (trimRight l).head? = l.head? := by
  cases l with
  | nil => simp [trimRight] at hne
  | cons c rest =>
      rw [trimRight] at hne ⊢
      by_cases hsplit : (trimRight rest).isEmpty && isWS c
      · simp [hsplit] at hne
      · simp [hsplit]

lemma head?_dropWhile {p : Char → Bool} :
    ∀ {l : List Char} {c : Char}, (l.dropWhile p).head? = some c → p c = false := by
  intro l
  induction l with
  | nil => intro c h; simp at h
  | cons d rest ih =>
      intro c h
      rw [List.dropWhile_cons] at h
      by_cases hd : p d
      · rw [if_pos hd] at h
        exact ih h
      · rw [if_neg hd] at h
        simp at h
        subst h
        exact Bool.of_not_eq_true hd

lemma split_count_main : ∀ n : Nat, ∀ l : List Char, l.length ≤ n →
    (endsNonWS l → ∀ acc : List Char, (splitWSAux l acc).length = 1 + insideToken l) ∧
    (l ≠ [] → endsNonWS l → (skipWSRun l).length = countTokens l) := by
  intro n
  induction n with
  | zero =>
      intro l hl
      have hnil : l = [] := List.eq_nil_of_length_eq_zero (Nat.le_zero.mp hl)
      subst hnil
      refine ⟨fun _ acc => by simp [splitWSAux, insideToken], fun h => absurd rfl h⟩
  | succ n ih =>
      intro l hl
      cases l with
      | nil =>
          refine ⟨fun _ acc => by simp [splitWSAux, insideToken], fun h => absurd rfl h⟩
      | cons c rest =>
          have hrest : rest.length ≤ n := Nat.le_of_succ_le_succ (by simpa using hl)
          constructor
          · intro hends acc
            cases hc : isWS c with
            | true =>
                have hne : rest ≠ [] := ne_nil_of_endsNonWS_ws hends hc
                have hrends : endsNonWS rest := endsNonWS_of_cons hends hne
                have h1 : splitWSAux (c :: rest) acc = acc.reverse :: skipWSRun rest := by
                  simp [splitWSAux, hc]
                have h2 : insideToken (c :: rest) = countTokens rest := by
                  simp [insideToken, hc]
                rw [h1, h2, List.length_cons, (ih rest hrest).2 hne hrends]
                omega
            | false =>
                have hrends : endsNonWS rest := by
                  cases rest with
                  | nil => exact endsNonWS_nil
                  | cons e t => exact endsNonWS_of_cons hends (by simp)
                have h1 : splitWSAux (c :: rest) acc = splitWSAux rest (c :: acc) := by
                  simp [splitWSAux, hc]
                have h2 : insideToken (c :: rest) = insideToken rest := by
                  simp [insideToken, hc]
                rw [h1, h2]
                exact (ih rest hrest).1 hrends (c :: acc)
          · intro _ hends
            cases hc : isWS c with
            | true =>
                have hne : rest ≠ [] := ne_nil_of_endsNonWS_ws hends hc
                have hrends : endsNonWS rest := endsNonWS_of_cons hends hne
                have h1 : skipWSRun (c :: rest) = skipWSRun rest := by
                  simp [skipWSRun, hc]
                have h2 : countTokens (c :: rest) = countTokens rest := by
                  simp [countTokens, hc]
                rw [h1, h2]
                exact (ih rest hrest).2 hne hrends
            | false =>
                have hrends : endsNonWS rest := by
                  cases rest with
                  | nil => exact endsNonWS_nil
                  | cons e t => exact endsNonWS_of_cons hends (by simp)
                have h1 : skipWSRun (c :: rest) = splitWSAux rest [c] := by
                  simp [skipWSRun, hc]
                have h2 : countTokens (c :: rest) = 1 + insideToken rest := by
                  simp [countTokens, hc]
                rw [h1, h2]
                exact (ih rest hrest).1 hrends [c]

/-- `handleEditorChange`'s word count agrees with the spec-side token
count of the trimmed content (in particular it is `0` on blank content,
since `countTokens [] = 0`). -/
lemma wordCountJS_eq_countTokens (s : String) :
    wordCountJS s = countTokens (jsTrim s).data := by
  rw [wordCountJS]
  by_cases h : jsTrim s = ""
  · rw [if_pos h, h]
    simp [countTokens]
  · rw [if_neg h]
    have hdata : (jsTrim s).data ≠ [] := by
      intro hd
      have hd' : (jsTrim s).data = String.data "" := by simpa using hd
      exact h (String.ext hd')
    obtain ⟨c, rest, hl⟩ := List.exists_cons_of_ne_nil hdata
    have hends : endsNonWS (jsTrim s).data := endsNonWS_trimRight _
    have hhead : isWS c = false := by
      have h2 : (trimRight (s.data.dropWhile isWS)).head? = some c := by
        show (jsTrim s).data.head? = some c
        rw [hl]
        rfl
      have h3 : (s.data.dropWhile isWS).head? = some c :=
        (head?_trimRight (by show (jsTrim s).data ≠ []; exact hdata)).symm.trans h2
      exact head?_dropWhile h3
    rw [hl, jsSplitWS]
    have h1 : splitWSAux (c :: rest) [] = splitWSAux rest [c] := by
      simp [splitWSAux, hhead]
    have h2 : countTokens (c :: rest) = 1 + insideToken rest := by
      simp [countTokens, hhead]
    rw [h1, h2]
    have hrends : endsNonWS rest := by
      cases rest with
      | nil => exact endsNonWS_nil
      | cons e t => exact endsNonWS_of_cons (hl ▸ hends) (by simp)
    exact (split_count_main rest.length rest le_rfl).1 hrends [c]

example : jsOr (some "") "d" = "d" := by decide
example : jsOr none "d" = "d" := by decide
example : jsOr (some "x") "d" = "x" := by decide
example : jsTrim "  a b " = "a b" := by decide
example : wordCountJS "  one  two three " = 3 := by decide
example : wordCountJS "   " = 0 := by decide
example : countTokens ("one  two three".data) = 3 := by decide

/-- C1 counterexample: a whitespace-only selection is truthy in JS, so
`generateRewrite`'s `!payload.selection` check does not fire — the
operation raises no validation error and performs the network exchange,
contradicting the claim that a whitespace-only selection fails fast. -/
theorem C1_counterexample :
    generateRewrite { current_text := "Once upon a time.", selection := some " " }
      = .ok { endpoint := "/generate/rewrite",
              body := { instruction := some "Rewrite the following text",
                        current_text := "Once upon a time.",
                        selection := some " " } } := rfl

/-- C1 (amended): when the rewrite payload's selection is absent or the
empty string, `generateRewrite` raises exactly
"Selection is required for rewrite operation." and performs no network
exchange (an `error` result is produced before any `Request` is built);
whitespace-only selections are not rejected. -/
theorem C1_rewrite_validation (p : Payload)
    (h : p.selection = none ∨ p.selection = some "") :
    generateRewrite p = .error "Selection is required for rewrite operation." := by
  rcases h with h | h <;> simp [generateRewrite, jsFalsyOpt, h]

/-- C1 witness: the amended validation rule at a concrete payload. -/
theorem C1_rewrite_validation_witness :
    generateRewrite { current_text := "x", selection := some "" }
      = .error "Selection is required for rewrite operation." :=
  C1_rewrite_validation { current_text := "x", selection := some "" } (Or.inr rfl)

/-- C2 counterexample: in the concrete rewrite scenario the derived
plain text is not the claimed "In an age long past, upon a time." — the
generated text is parsed into a block-level paragraph, so a line break
separates it from the preserved remainder. -/
theorem C2_counterexample :
    listText (spliceRewriteTree "Once upon a time." 0 4 (markedParse "In an age long past,"))
      ≠ "In an age long past, upon a time." := by
  decide

/-- C2 (amended): the splice deletes exactly the anchored span ("Once",
characters 0-3) and inserts the parsed fragment in its place with the
remainder " upon a time." preserved after it in the tree; because `marked`
parses the generated text into a `<p>` block — whose required line break
count is 2 — and the remainder's collapsible space is stripped at the
start of its new line, the re-derived plain text is
"In an age long past,\n\nupon a time." (the inserted paragraph block is
followed by a blank line), not the single-line text the claim states. -/
theorem C2_rewrite_scenario :
    spliceRewriteTree "Once upon a time." 0 4 (markedParse "In an age long past,")
      = [.text "", .elem "p" [.text "In an age long past,"], .text " upon a time."]
    ∧ listText (spliceRewriteTree "Once upon a time." 0 4 (markedParse "In an age long past,"))
      = "In an age long past,\n\nupon a time." := by
  refine ⟨?_, by decide⟩
  have h1 : (⟨"Once upon a time.".data.take 0⟩ : String) = "" := by decide
  have h2 : (⟨"Once upon a time.".data.drop 4⟩ : String) = " upon a time." := by decide
  simp [spliceRewriteTree, markedParse, h1, h2]

/-- C3: after either splice (the targeted replace of `handleAiAction` or
the append of `handleGenerateWrite`), the tracked plain-text content is
exactly the text re-derived from the spliced tree — and since `listText`
is a function of the tree, deriving it again without further mutation
yields the same string. -/
theorem C3_splice_view_consistency
    (doc : String) (start len : Nat) (tree : List DomNode)
    (editorContent : String) (fragment : List DomNode) :
    (rewriteSpliceResult doc start len fragment).2.content
        = listText (rewriteSpliceResult doc start len fragment).1
    ∧ (appendSpliceResult tree editorContent fragment).2.content
        = listText (appendSpliceResult tree editorContent fragment).1 :=
  ⟨rfl, rfl⟩

/-- C4 counterexample: the creative-branching request includes
`story_context` even when every Story Context field is blank — the key is
present (`some`), contradicting the claimed omission rule for "every
outgoing generation request". -/
theorem C4_counterexample :
    (branchingPayload "" "scenario" "question" {}).story_context ≠ none := by
  simp [branchingPayload]

/-- C4 (amended): the App.jsx write/describe/brainstorm requests omit the
`story_context` key exactly when every field is the empty string and
otherwise include the whole mapping verbatim (blank fields included); the
creative-branching request includes `story_context` verbatim
unconditionally. -/
theorem C4_story_context_rule (ec : String) (sc : StoryContext) :
    (writePayloadApp ec sc).story_context
        = (if someNonEmptyField sc then some sc else none)
    ∧ (describePayloadApp ec sc).story_context
        = (if someNonEmptyField sc then some sc else none)
    ∧ (brainstormPayloadApp ec sc).story_context
        = (if someNonEmptyField sc then some sc else none)
    ∧ (∀ st q, (branchingPayload ec st q sc).story_context = some sc) :=
  ⟨rfl, rfl, rfl, fun _ _ => rfl⟩

/-- C5 counterexample: `generateWrite` substitutes no default — with the
instruction omitted, the outgoing body carries no instruction at all, so
the write kind does not send a documented default instruction. -/
theorem C5_counterexample :
    (generateWrite { current_text := "t" }).body.instruction = none := rfl

/-- C5 (amended): for describe, brainstorm, context-element and
story-branches, an omitted instruction is replaced by the kind-specific
default string verbatim and a caller-supplied instruction overrides it;
the write operation substitutes no default and forwards its payload
unchanged. -/
theorem C5_default_instructions (p : Payload) (i k : String) :
    (generateWrite p).body = p
    ∧ (generateDescribe { p with instruction := none }).body.instruction
        = some "Describe the following text/concept in more detail"
    ∧ (generateDescribe { p with instruction := some i }).body.instruction = some i
    ∧ (generateBrainstorm { p with instruction := none }).body.instruction
        = some "Brainstorm ideas based on the following"
    ∧ (generateBrainstorm { p with instruction := some i }).body.instruction = some i
    ∧ (generateContextElement k { p with instruction := none }).body.instruction
        = some ("Generate " ++ k ++ " for my story")
    ∧ (generateContextElement k { p with instruction := some i }).body.instruction = some i
    ∧ (generateStoryBranchesRequest { p with instruction := none }).body.instruction
        = some "Generate alternative story branches"
    ∧ (generateStoryBranchesRequest { p with instruction := some i }).body.instruction
        = some i :=
  ⟨rfl, rfl, rfl, rfl, rfl, rfl, rfl, rfl, rfl⟩

/-- C6: evaluating `handleStartBrainstorming` at a non-blank prompt with a
successful backend exchange shows `isGenerating` is still `true` when the
completion handling finishes — the success path has no `finally` and never
resets the flag (and the dialog's reopen effect resets every field except
`isGenerating`), so the claim that the in-flight flag is cleared on every
outcome fails on this handler. -/
theorem C6_brainstorm_flag_stuck :
    (handleStartBrainstorming
        { ideaPrompt := "character names for my story" }
        (.success "1. Anna")).isGenerating = true := by
  decide

/-- C7: story-branches normalization — a response item carrying only
`title: "T"` yields a Branch with the generated non-empty id
`branch-<rnd>`, title "T", empty summary and empty content; a response
with no `branches` key yields the empty list. -/
theorem C7_branch_normalization (rnd : Nat → String) :
    normalizeBranches rnd (some [{ title := some "T" }])
      = [{ id := "branch-" ++ rnd 0, title := "T", summary := "", content := "" }]
    ∧ ("branch-" ++ rnd 0) ≠ ""
    ∧ normalizeBranches rnd none = [] := by
  refine ⟨rfl, ?_, rfl⟩
  intro h
  have hlen := congrArg String.length h
  rw [String.length_append] at hlen
  have h7 : ("branch-" : String).length = 7 := rfl
  have h0 : ("" : String).length = 0 := rfl
  omega

/-- C8: `back()` on an empty history stack is a no-op on the entire
explorer state, and `select(branch)` with a present (non-empty) id
immediately followed by `back()` restores the pre-select scenario id,
scenario text, branching question and candidate branch list exactly. -/
theorem C8_back_noop_and_roundtrip :
    (∀ s : ExplorerState, s.branchHistory = [] → handleGoBack s = s)
    ∧ (∀ (s : ExplorerState) (b : Branch), b.id ≠ "" →
        (handleGoBack (handleSelectBranch s b)).currentScenario = s.currentScenario
        ∧ (handleGoBack (handleSelectBranch s b)).scenarioText = s.scenarioText
        ∧ (handleGoBack (handleSelectBranch s b)).branchQuestion = s.branchQuestion
        ∧ (handleGoBack (handleSelectBranch s b)).branches = s.branches) := by
  constructor
  · intro s h
    simp [handleGoBack, h]
  · intro s b hb
    have hstep : handleSelectBranch s b =
        { s with
          branchHistory := s.branchHistory ++
            [{ id := s.currentScenario, text := s.scenarioText,
               question := s.branchQuestion, branches := s.branches }]
          currentScenario := b.id
          scenarioText := b.content
          branchQuestion := ""
          branches := []
          activeTab := "visualization" } := by
      rw [handleSelectBranch, if_neg hb]
    rw [hstep]
    unfold handleGoBack
    simp [List.getLast?_concat, List.dropLast_concat]

/-- C8 witness: the round-trip at a concrete state and branch, and the
no-op at a concrete empty-history state. -/
theorem C8_back_noop_and_roundtrip_witness :
    handleGoBack { scenarioText := "start" } = { scenarioText := "start" }
    ∧ (handleGoBack (handleSelectBranch { scenarioText := "start" }
        { id := "b1", title := "T", summary := "S", content := "C" })).scenarioText
      = "start" :=
  ⟨C8_back_noop_and_roundtrip.1 { scenarioText := "start" } rfl,
   (C8_back_noop_and_roundtrip.2 { scenarioText := "start" }
      { id := "b1", title := "T", summary := "S", content := "C" }
      (by decide)).2.1⟩

/-- C9 counterexample: the custom-branch id is `custom-` followed by the
`Date.now()` timestamp with no uniqueness check — in a state whose
candidate list already holds a branch with id "custom-0", `addCustom` at
clock value 0 appends a branch with the very same id, so the synthesized
id is not distinct from every existing id. -/
theorem C9_counterexample :
    ((handleCustomBranch
        { branches := [{ id := "custom-0", title := "Existing",
                         summary := "", content := "" }],
          customBranchTitle := "My branch",
          customBranchContent := "Something happens" } 0).branches.map Branch.id)
      = ["custom-0", "custom-0"] := by
  decide

/-- C9 (amended): `addCustom` with both fields non-blank appends exactly
one branch whose id is `custom-<Date.now()>`; that id is unique within the
session only under the assumption that no branch in the candidate list or
in the history stack already carries it (the code performs no check).
Scenario state — current scenario id, scenario text, branching question
and the history stack — is unchanged. -/
theorem C9_addCustom (s : ExplorerState) (now : Nat)
    (ht : jsTrim s.customBranchTitle ≠ "")
    (hc : jsTrim s.customBranchContent ≠ "")
    (hfresh : ∀ b ∈ s.branches, b.id ≠ "custom-" ++ toString now)
    (hfreshHist : ∀ e ∈ s.branchHistory, ∀ b ∈ e.branches,
        b.id ≠ "custom-" ++ toString now) :
    ∃ nb : Branch,
      (handleCustomBranch s now).branches = s.branches ++ [nb]
      ∧ nb.id = "custom-" ++ toString now
      ∧ (∀ b ∈ s.branches, b.id ≠ nb.id)
      ∧ (∀ e ∈ s.branchHistory, ∀ b ∈ e.branches, b.id ≠ nb.id)
      ∧ (handleCustomBranch s now).currentScenario = s.currentScenario
      ∧ (handleCustomBranch s now).scenarioText = s.scenarioText
      ∧ (handleCustomBranch s now).branchQuestion = s.branchQuestion
      ∧ (handleCustomBranch s now).branchHistory = s.branchHistory := by
  refine ⟨{ id := "custom-" ++ toString now
            title := s.customBranchTitle
            content := s.customBranchContent
            summary := (⟨s.customBranchContent.data.take 100⟩ : String) ++
              (if s.customBranchContent.length > 100 then "..." else "")
            isCustom := true }, ?_, rfl, hfresh, hfreshHist, ?_, ?_, ?_, ?_⟩
    <;> simp [handleCustomBranch, ht, hc]

/-- C9 witness: the amended transition at a concrete state and clock. -/
theorem C9_addCustom_witness :
    (handleCustomBranch
      { customBranchTitle := "T", customBranchContent := "C" } 5).branchHistory
      = [] := by
  obtain ⟨nb, -, -, -, -, -, -, -, h⟩ :=
    C9_addCustom { customBranchTitle := "T", customBranchContent := "C" } 5
      (by decide) (by decide) (by simp) (by simp)
  simpa using h

/-- C10: `handleEditorChange` derives the word count as the number of
maximal whitespace-separated tokens of the trimmed content (`countTokens`
of the trimmed characters, which is `0` exactly when the content is empty
or whitespace-only) and simultaneously clears the saved flag. -/
theorem C10_word_count (s : String) :
    (handleEditorChange s).wordCount = countTokens (jsTrim s).data
    ∧ (handleEditorChange s).saved = false :=
  ⟨wordCountJS_eq_countTokens s, rfl⟩
